import Mathlib

/-!
A verification development for the conversational water-service agent
repository (AquaHub / CEA / WaterHub variants).  The definitions below are a
shallow embedding, translated from `src/tools.ts` and `src/agent.ts`:

* JavaScript numbers are modelled as `Nat` (integers: timestamps, sequence
  numbers) or `Rat` (amounts parsed from upstream payloads); IEEE-754
  rounding and `NaN` are abstracted (no settled claim depends on either).
* External effects (PostgreSQL / Supabase queries and inserts, HTTP calls,
  the LLM classification and persona turns) are passed in as explicit
  outcome parameters, so each exported operation becomes a total function
  of its inputs and the observed behaviour of its collaborators.
* `try { ... } catch` around code that cannot throw in the model is dropped;
  where a throw is reachable in JS (e.g. indexing an empty result set) the
  corresponding outcome is routed to the catch branch explicitly.
-/

/-! ## JavaScript string/number primitives -/

/-- The decimal digit character for `n < 10` (used by the model of
JavaScript `String(n)` / `Number.prototype.toString`). -/
def digitChar : Nat → Char
  | 0 => '0' | 1 => '1' | 2 => '2' | 3 => '3' | 4 => '4'
  | 5 => '5' | 6 => '6' | 7 => '7' | 8 => '8' | 9 => '9'
  | _ => '!'

/-- Fuel-indexed worker for `natDigits` (structural recursion so that the
kernel can evaluate it; any fuel above the number suffices). -/
def natDigitsAux : Nat → Nat → List Char
  | 0, _ => []
  | fuel + 1, n =>
    if n < 10 then [digitChar n]
    else natDigitsAux fuel (n / 10) ++ [digitChar (n % 10)]

/-- Decimal digit list of a natural number, most significant digit first;
model of JavaScript `String(n)` for a nonnegative integer. -/
def natDigits (n : Nat) : List Char :=
  natDigitsAux (n + 1) n

/-- Model of JavaScript `String(n)` / `n.toString()` for a natural number. -/
def natToString (n : Nat) : String :=
  String.mk (natDigits n)

/-- Model of JavaScript `String.prototype.padStart(targetLen, pad)`. -/
def jsPadStart (s : String) (targetLen : Nat) (pad : Char) : String :=
  if targetLen ≤ s.length then s
  else String.mk (List.replicate (targetLen - s.length) pad) ++ s

/-- `String(n).padStart(2, '0')` as used for month and day segments. -/
def pad2 (n : Nat) : String := jsPadStart (natToString n) 2 '0'

/-- `String(n).padStart(4, '0')` as used for the folio sequence. -/
def pad4 (n : Nat) : String := jsPadStart (natToString n) 4 '0'

/-- Model of JavaScript `s.slice(-4)`: the last four characters
(or all of `s` when it is shorter). -/
def sliceLast4 (s : String) : String :=
  String.mk (s.data.drop (s.data.length - 4))

/-- Decimal digit test, `[0-9]` of the source's regexes. -/
def isDigitCh (c : Char) : Bool := '0' ≤ c && c ≤ '9'

/-- Uppercase-letter test, `[A-Z]` of the folio format regex. -/
def isUpperCh (c : Char) : Bool := 'A' ≤ c && c ≤ 'Z'

/-- Value of a list of decimal digit characters, most significant first;
model of JavaScript `parseInt` applied to an all-digit string. -/
def digitsVal (l : List Char) : Nat :=
  l.foldl (fun acc c => acc * 10 + (c.toNat - 48)) 0

/-- Model of JavaScript `s.includes(sub)`. -/
def jsIncludes (s sub : String) : Bool :=
  decide (sub.data <:+: s.data)

/-! ## Folio generator (`src/tools.ts`) -/

/-- Ticket categories of the CEA deployment (`TicketType` in `types`,
as enumerated by the `create_ticket` schema in `src/tools.ts`). -/
inductive TicketType
  | fuga | aclaraciones | pagos | lecturas | revision_recibo | recibo_digital | urgente
deriving Repr, DecidableEq

/-- `TICKET_CODES` from `src/tools.ts`: the fixed 3-letter code per category. -/
def TICKET_CODES : TicketType → String
  | .fuga => "FUG"
  | .aclaraciones => "ACL"
  | .pagos => "PAG"
  | .lecturas => "LEC"
  | .revision_recibo => "REV"
  | .recibo_digital => "DIG"
  | .urgente => "URG"

/-- The components read off `getMexicoDate()`: `getFullYear()`,
`getMonth() + 1` (so `month` here is already 1-based) and `getDate()`. -/
structure DateParts where
  year : Nat
  month : Nat
  day : Nat
deriving Repr, DecidableEq

/-- The `dateStr` computed by all three folio generators:
`year.toString() + String(month).padStart(2,'0') + String(day).padStart(2,'0')`. -/
def dateStr (dp : DateParts) : String :=
  natToString dp.year ++ pad2 dp.month ++ pad2 dp.day

/-- Model of `lastFolio.match(dash, four digits, end of string)` — the
source's trailing-sequence regex — followed by `parseInt(match[1])`:
`some` of the numeric value of the last four characters when they are all
digits, are preceded by a dash, and end the string; `none` when the regex
does not match. -/
def extractSeq (s : String) : Option Nat :=
  let cs := s.data
  let n := cs.length
  if 5 ≤ n then
    if (cs[n - 5]? == some '-') && (cs.drop (n - 4)).all isDigitCh then
      some (digitsVal (cs.drop (n - 4)))
    else none
  else none

/-- The `nextNumber` computation shared by `generateTicketFolioFromPG` and
`generateTicketFolioFromDB`: start from 1; when the query returned at least
one row, parse the first row's trailing 4-digit group and add 1 (keeping 1
when the regex does not match). -/
def pgNextSeq (rows : List String) : Nat :=
  match rows.head? with
  | none => 1
  | some lastFolio =>
    match extractSeq lastFolio with
    | some n => n + 1
    | none => 1

/-- `generateTicketFolioFromPG` from `src/tools.ts`.  `dp`/`nowMs` are the
date parts and epoch milliseconds of `getMexicoDate()`; `queryOutcome` is the
result of the `SELECT folio ... ORDER BY folio DESC LIMIT 1` query
(`Except.error` models the query throwing, which takes the timestamp
fallback branch). -/
def generateTicketFolioFromPG (tt : TicketType) (dp : DateParts) (nowMs : Nat)
    (queryOutcome : Except Unit (List String)) : String :=
  let stem := TICKET_CODES tt ++ "-" ++ dateStr dp
  match queryOutcome with
  | .error _ => stem ++ "-" ++ sliceLast4 (natToString nowMs)
  | .ok rows => stem ++ "-" ++ pad4 (pgNextSeq rows)

/-- `generateTicketFolioFromDB` from `src/tools.ts` (the Supabase-backed
generator); the sequencing logic is identical to the PostgreSQL one, with
`queryOutcome` the result of the `folio=like.{prefix}*` REST query. -/
def generateTicketFolioFromDB (tt : TicketType) (dp : DateParts) (nowMs : Nat)
    (queryOutcome : Except Unit (List String)) : String :=
  let stem := TICKET_CODES tt ++ "-" ++ dateStr dp
  match queryOutcome with
  | .error _ => stem ++ "-" ++ sliceLast4 (natToString nowMs)
  | .ok rows => stem ++ "-" ++ pad4 (pgNextSeq rows)

/-- `generateTicketFolio` from `src/tools.ts`: the synchronous local
fallback, whose sequence segment is `now.getTime().toString().slice(-4)`. -/
def generateTicketFolio (tt : TicketType) (dp : DateParts) (nowMs : Nat) : String :=
  TICKET_CODES tt ++ "-" ++ dateStr dp ++ "-" ++ sliceLast4 (natToString nowMs)

/-- The spec's folio format `^[A-Z]{3}-\d{8}-\d{4}$`, as a decidable check:
three uppercase letters, a dash, eight digits, a dash, four digits, end. -/
def matchesFolioFormat (s : String) : Bool :=
  match s.data with
  | a :: b :: c :: '-' :: rest =>
    isUpperCh a && isUpperCh b && isUpperCh c &&
    (rest.take 8).length == 8 && (rest.take 8).all isDigitCh &&
    (match rest.drop 8 with
     | '-' :: last => last.length == 4 && last.all isDigitCh
     | _ => false)
  | _ => false

/-- The numeric value of the maximal trailing run of digit characters of a
folio (the "numeric suffix" the monotonicity claim compares). -/
def trailingNumber (s : String) : Nat :=
  digitsVal ((s.data.reverse.takeWhile isDigitCh).reverse)

/-! ## XML field extraction (`parseXMLValue` and block matching, `src/tools.ts`) -/

/-- Case-insensitive "the pattern is a prefix of the input" (the source builds
its extraction regexes with the `i` flag). -/
def ciStarts : List Char → List Char → Bool
  | [], _ => true
  | _ :: _, [] => false
  | p :: ps, c :: cs => (p.toLower == c.toLower) && ciStarts ps cs

/-- Consume characters up to (and including) the first occurrence of `stop`;
returns the consumed characters before `stop` and the remainder after it,
or `none` when `stop` does not occur.  This is the deterministic behaviour
of the greedy character classes `[^>]*>` and `[^<]*<` in the source regex. -/
def takeUntilCh (stop : Char) : List Char → Option (List Char × List Char)
  | [] => none
  | c :: cs =>
    if c == stop then some ([], cs)
    else (takeUntilCh stop cs).map (fun pr => (c :: pr.1, pr.2))

/-- Attempt to match `tag` + `[^>]*` + close angle + `([^<]*)` + the closing
tag, starting just after an opening angle bracket; yields the captured
group on success. -/
def matchTagAt (tag : List Char) (l : List Char) : Option (List Char) :=
  if ciStarts tag l then
    match takeUntilCh '>' (l.drop tag.length) with
    | none => none
    | some (_, afterGt) =>
      match takeUntilCh '<' afterGt with
      | none => none
      | some (content, afterLt) =>
        if ciStarts ('/' :: tag ++ ['>']) afterLt then some content else none
  else none

/-- Scan the input left to right for the first position where the tag
pattern matches (the JavaScript `String.prototype.match` semantics without
the `g` flag). -/
def scanXML (tag : List Char) : List Char → Option (List Char)
  | [] => none
  | c :: cs =>
    if c == '<' then
      match matchTagAt tag cs with
      | some content => some content
      | none => scanXML tag cs
    else scanXML tag cs

/-- Model of JavaScript `String.prototype.trim`: strip leading and
trailing whitespace characters. -/
def jsTrim (l : List Char) : List Char :=
  ((l.dropWhile Char.isWhitespace).reverse.dropWhile Char.isWhitespace).reverse

/-- `parseXMLValue` from `src/tools.ts`: first match of the tag-extraction
regex, trimmed; `null` (here `none`) when there is no match. -/
def parseXMLValue (xml tag : String) : Option String :=
  (scanXML tag.data xml.data).map (fun content => String.mk (jsTrim content))

/-- JavaScript `a || b` specialised to a possibly-`null` string `a` and a
string default `b`: both `null` and the empty string are falsy. -/
def jsOrElse (a : Option String) (b : String) : String :=
  match a with
  | some s => if s = "" then b else s
  | none => b

/-- JavaScript `a || null` / truthiness normalisation of a possibly-`null`
string: the empty string collapses to `null`. -/
def jsStrOrNone (a : Option String) : Option String :=
  match a with
  | some s => if s = "" then none else some s
  | none => none

/-- Find the first case-insensitive occurrence of `pat`; returns the part
before the match, the matched source characters, and the part after. -/
def splitCI (pat : List Char) : List Char → Option (List Char × List Char × List Char)
  | [] => if ciStarts pat [] then some ([], [], []) else none
  | c :: cs =>
    if ciStarts pat (c :: cs) then
      some ([], (c :: cs).take pat.length, (c :: cs).drop pat.length)
    else
      (splitCI pat cs).map (fun t => (c :: t.1, t.2.1, t.2.2))

/-- Fuel-indexed worker for the global lazy block regex
(open tag, any characters lazily, close tag, `g` + `i` flags): each match
runs from an occurrence of the open tag to the earliest following close
tag, and scanning resumes after the match. -/
def matchBlocksAux (openT closeT : List Char) : Nat → List Char → List (List Char)
  | 0, _ => []
  | fuel + 1, l =>
    match splitCI openT l with
    | none => []
    | some (_, mOpen, afterOpen) =>
      match splitCI closeT afterOpen with
      | none => []
      | some (inner, mClose, afterClose) =>
        (mOpen ++ inner ++ mClose) :: matchBlocksAux openT closeT fuel afterClose

/-- Model of `xml.match(open .. lazy .. close, gi)` returning the list of
matched blocks (the JavaScript call returns `null` for no match; the source
always coalesces that to an empty array or another match list). -/
def matchBlocks (openT closeT xml : String) : List String :=
  (matchBlocksAux openT.data closeT.data xml.data.length xml.data).map String.mk

/-- Digit-run consumer for `parseFloat`: accumulated value, number of digits
consumed, rest of the input. -/
def parseDigitsAux : Nat → Nat → List Char → Nat × Nat × List Char
  | acc, cnt, [] => (acc, cnt, [])
  | acc, cnt, c :: cs =>
    if isDigitCh c then parseDigitsAux (acc * 10 + (c.toNat - 48)) (cnt + 1) cs
    else (acc, cnt, c :: cs)

/-- The optional leading sign of a `parseFloat` input: whether the number is
negated, and the remaining characters. -/
def jsSignSplit (l : List Char) : Bool × List Char :=
  match l with
  | '-' :: r => (true, r)
  | '+' :: r => (false, r)
  | _ => (false, l)

/-- Model of JavaScript `parseFloat` on the decimal strings the upstream
payloads carry: leading whitespace, optional sign, integer digits, optional
fraction.  JavaScript's `NaN` result (no digits at all) is modelled as `0`
and exponent notation is not modelled; no settled claim depends on either
case.  Values are exact rationals (IEEE-754 rounding is abstracted). -/
def jsParseFloat (s : String) : Rat :=
  let l := s.data.dropWhile (fun c => c.isWhitespace)
  let signRest := jsSignSplit l
  let ip := parseDigitsAux 0 0 signRest.2
  match ip.2.2 with
  | '.' :: r =>
    let fp := parseDigitsAux 0 0 r
    if ip.2.1 = 0 ∧ fp.2.1 = 0 then 0
    else
      let mag : Rat := (ip.1 : Rat) + (fp.1 : Rat) / (10 : Rat) ^ fp.2.1
      if signRest.1 then -mag else mag
  | _ =>
    if ip.2.1 = 0 then 0
    else if signRest.1 then -(ip.1 : Rat) else (ip.1 : Rat)

/-! ## Upstream response parsers (`src/tools.ts`) -/

/-- The fault check shared by the three parsers:
`xml.includes(opening faultstring tag) || xml.includes(opening error tag)`. -/
def hasFaultMarker (xml : String) : Bool :=
  jsIncludes xml "<faultstring>" || jsIncludes xml "<error>"

/-- The fault message of a faulted payload:
`parseXMLValue(xml, "faultstring") || parseXMLValue(xml, "error") || "Error desconocido"`. -/
def faultMsgOf (xml : String) : String :=
  jsOrElse (parseXMLValue xml "faultstring")
    (jsOrElse (parseXMLValue xml "error") "Error desconocido")

/-- A debt line item (`conceptos` entry of `parseDeudaResponse`). -/
structure DeudaConcepto where
  periodo : String
  concepto : String
  monto : Rat
  fechaVencimiento : String
  estado : String
deriving Repr, DecidableEq

/-- The success payload of `parseDeudaResponse`. -/
structure DeudaData where
  totalDeuda : Rat
  vencido : Rat
  porVencer : Rat
  conceptos : List DeudaConcepto
deriving Repr, DecidableEq

/-- The result record of `parseDeudaResponse`; absent optional fields of the
JavaScript object are `none`. -/
structure DeudaResponse where
  success : Bool
  error : Option String
  rawResponse : Option String
  data : Option DeudaData
deriving Repr, DecidableEq

/-- `parseDeudaResponse` from `src/tools.ts`.  The surrounding
`try { ... } catch` is dropped: every operation in the body is total in the
model (and in JavaScript none of them throws on a string input). -/
def parseDeudaResponse (xml : String) : DeudaResponse :=
  if hasFaultMarker xml then
    { success := false, error := some (faultMsgOf xml), rawResponse := some xml, data := none }
  else
    let conceptos := (matchBlocks "<concepto>" "</concepto>" xml).map (fun b =>
      { periodo := jsOrElse (parseXMLValue b "periodo") ""
        concepto := jsOrElse (parseXMLValue b "descripcion") ""
        monto := jsParseFloat (jsOrElse (parseXMLValue b "importe") "0")
        fechaVencimiento := jsOrElse (parseXMLValue b "fechaVencimiento") ""
        estado := "por_vencer" : DeudaConcepto })
    { success := true, error := none, rawResponse := none,
      data := some
        { totalDeuda := jsParseFloat
            (jsOrElse (parseXMLValue xml "importeTotal")
              (jsOrElse (parseXMLValue xml "totalDeuda") "0"))
          vencido := jsParseFloat (jsOrElse (parseXMLValue xml "importeVencido") "0")
          porVencer := jsParseFloat (jsOrElse (parseXMLValue xml "importePorVencer") "0")
          conceptos := conceptos } }

/-- A consumption period entry (`consumos` entry of `parseConsumoResponse`). -/
structure ConsumoItem where
  periodo : String
  consumoM3 : Rat
  lecturaAnterior : Rat
  lecturaActual : Rat
  fechaLectura : String
  tipoLectura : String
deriving Repr, DecidableEq

/-- The consumption trend labels of `parseConsumoResponse`. -/
inductive Tendencia
  | aumentando | estable | disminuyendo
deriving Repr, DecidableEq

/-- The trend computation of `parseConsumoResponse` (three or more periods:
compare the mean of the first three entries with the mean of the last three,
against the factors 1.1 and 0.9; otherwise keep the initial value
`estable`).  The float literals 1.1 and 0.9 are the exact rationals 11/10
and 9/10 here. -/
def computeTendencia (vals : List Rat) : Tendencia :=
  if 3 ≤ vals.length then
    let recent := (vals.take 3).sum / 3
    let older := (vals.drop (vals.length - 3)).sum / 3
    if recent > older * (11 / 10 : Rat) then .aumentando
    else if recent < older * (9 / 10 : Rat) then .disminuyendo
    else .estable
  else .estable

/-- The success payload of `parseConsumoResponse`. -/
structure ConsumoData where
  consumos : List ConsumoItem
  promedioMensual : Rat
  tendencia : Tendencia
deriving Repr, DecidableEq

/-- The result record of `parseConsumoResponse`. -/
structure ConsumoResponse where
  success : Bool
  error : Option String
  data : Option ConsumoData
deriving Repr, DecidableEq

/-- `parseConsumoResponse` from `src/tools.ts` (try/catch dropped as for the
debt parser). -/
def parseConsumoResponse (xml : String) : ConsumoResponse :=
  if hasFaultMarker xml then
    { success := false, error := some (faultMsgOf xml), data := none }
  else
    let blocks :=
      let a := matchBlocks "<consumo>" "</consumo>" xml
      if a = [] then matchBlocks "<lectura>" "</lectura>" xml else a
    let consumos := blocks.map (fun b =>
      { periodo := jsOrElse (parseXMLValue b "periodo")
          (jsOrElse (parseXMLValue b "fechaLectura") "")
        consumoM3 := jsParseFloat
          (jsOrElse (parseXMLValue b "consumo") (jsOrElse (parseXMLValue b "m3") "0"))
        lecturaAnterior := jsParseFloat (jsOrElse (parseXMLValue b "lecturaAnterior") "0")
        lecturaActual := jsParseFloat (jsOrElse (parseXMLValue b "lecturaActual") "0")
        fechaLectura := jsOrElse (parseXMLValue b "fechaLectura") ""
        tipoLectura := jsOrElse (parseXMLValue b "tipoLectura") "real" : ConsumoItem })
    let promedioMensual : Rat :=
      if 0 < consumos.length then (consumos.map (·.consumoM3)).sum / (consumos.length : Rat)
      else 0
    { success := true, error := none,
      data := some
        { consumos := consumos
          promedioMensual := promedioMensual
          tendencia := computeTendencia (consumos.map (·.consumoM3)) } }

/-- The success payload of `parseContratoResponse`. -/
structure ContratoData where
  numeroContrato : String
  titular : String
  direccion : String
  colonia : String
  codigoPostal : String
  tarifa : String
  estado : String
  fechaAlta : String
  ultimaLectura : Option String
deriving Repr, DecidableEq

/-- The result record of `parseContratoResponse`. -/
structure ContratoResponse where
  success : Bool
  error : Option String
  data : Option ContratoData
deriving Repr, DecidableEq

/-- `parseContratoResponse` from `src/tools.ts` (try/catch dropped as
above). -/
def parseContratoResponse (xml : String) : ContratoResponse :=
  if hasFaultMarker xml then
    { success := false, error := some (faultMsgOf xml), data := none }
  else
    { success := true, error := none,
      data := some
        { numeroContrato := jsOrElse (parseXMLValue xml "numeroContrato")
            (jsOrElse (parseXMLValue xml "contrato") "")
          titular := jsOrElse (parseXMLValue xml "nombreTitular")
            (jsOrElse (parseXMLValue xml "titular") "")
          direccion := jsOrElse (parseXMLValue xml "direccion")
            (jsOrElse (parseXMLValue xml "domicilio") "")
          colonia := jsOrElse (parseXMLValue xml "colonia") ""
          codigoPostal := jsOrElse (parseXMLValue xml "codigoPostal")
            (jsOrElse (parseXMLValue xml "cp") "")
          tarifa := jsOrElse (parseXMLValue xml "tarifa")
            (jsOrElse (parseXMLValue xml "tipoTarifa") "")
          estado := jsOrElse (parseXMLValue xml "estado") "activo"
          fechaAlta := jsOrElse (parseXMLValue xml "fechaAlta") ""
          ultimaLectura := jsStrOrNone (parseXMLValue xml "ultimaLectura") } }

/-! ## Ticket creation (`createTicketDirect`, `src/tools.ts`) -/

/-- Ticket priorities of the `create_ticket` schema. -/
inductive Priority
  | baja | media | alta | urgente
deriving Repr, DecidableEq

/-- `PRIORITY_MAP` from `src/tools.ts`. -/
def PRIORITY_MAP : Priority → String
  | .baja => "low"
  | .media => "medium"
  | .alta => "high"
  | .urgente => "urgent"

/-- `SERVICE_TYPE_MAP` from `src/tools.ts`. -/
def SERVICE_TYPE_MAP : TicketType → String
  | .fuga => "leak_report"
  | .aclaraciones => "clarifications"
  | .pagos => "payment"
  | .lecturas => "report_reading"
  | .revision_recibo => "receipt_review"
  | .recibo_digital => "digital_receipt"
  | .urgente => "human_agent"

/-- `CreateTicketInput`: the `create_ticket` tool's validated input
(`priority` carries its schema default through `Option`). -/
structure CreateTicketInput where
  service_type : TicketType
  titulo : String
  descripcion : String
  contract_number : Option String
  email : Option String
  ubicacion : Option String
  priority : Option Priority
deriving Repr, DecidableEq

/-- `CreateTicketResult`: the record returned by `createTicketDirect`. -/
structure CreateTicketResult where
  success : Bool
  folio : String
  ticketId : Option String
  warning : Option String
  message : String
deriving Repr, DecidableEq

/-- The columns of interest of the row `createTicketDirect` passes to its
`INSERT INTO tickets` statement. -/
structure TicketRow where
  folio : String
  title : String
  description : String
  status : String
  priority : String
  ticket_type : String
  service_type : String
  channel : String
  contract_number : Option String
  client_name : Option String
deriving Repr, DecidableEq

/-- The insert payload built by `createTicketDirect` (lines binding
`serviceType`, `ticketType`, `priority`, `status` and the `VALUES` list).
The JavaScript fallbacks after the map lookups are unreachable here because
the maps are total. -/
def buildTicketRow (input : CreateTicketInput) (folio : String) : TicketRow :=
  { folio := folio
    title := input.titulo
    description := input.descripcion
    status := "open"
    priority := PRIORITY_MAP (input.priority.getD .media)
    ticket_type := TICKET_CODES input.service_type
    service_type := SERVICE_TYPE_MAP input.service_type
    channel := "whatsapp"
    contract_number := jsStrOrNone input.contract_number
    client_name :=
      if (jsStrOrNone input.contract_number).isSome then none
      else some "Cliente WhatsApp" }

/-- The row `createTicketDirect` attempts to insert: the folio is the one
produced by `generateTicketFolioFromPG` for the observed store state. -/
def createTicketInsertRow (input : CreateTicketInput) (dpGen : DateParts) (msGen : Nat)
    (folioQuery : Except Unit (List String)) : TicketRow :=
  buildTicketRow input (generateTicketFolioFromPG input.service_type dpGen msGen folioQuery)

/-- `createTicketDirect` from `src/tools.ts`.  `dpGen`/`msGen` are the
clock reading inside `generateTicketFolioFromPG`; `folioQuery` is that
generator's store query outcome; `insertOutcome` is the `INSERT ...
RETURNING id, folio` outcome (`error`, or the returned rows — an empty row
set makes the JavaScript `result[0].folio` access throw, which lands in the
same catch branch as a failed insert); `dpFb`/`msFb` are the clock reading
of the catch branch's `generateTicketFolio` call. -/
def createTicketDirect (input : CreateTicketInput)
    (dpGen : DateParts) (msGen : Nat) (folioQuery : Except Unit (List String))
    (insertOutcome : Except Unit (List (Nat × String)))
    (dpFb : DateParts) (msFb : Nat) : CreateTicketResult :=
  let _folio := generateTicketFolioFromPG input.service_type dpGen msGen folioQuery
  match insertOutcome with
  | .ok (row :: _) =>
    { success := true
      folio := row.2
      ticketId := some (natToString row.1)
      warning := none
      message := "Ticket creado exitosamente con folio " ++ row.2 }
  | _ =>
    let fallbackFolio := generateTicketFolio input.service_type dpFb msFb
    { success := true
      folio := fallbackFolio
      ticketId := none
      warning := some "Ticket creado localmente, sincronización pendiente"
      message := "Ticket registrado con folio " ++ fallbackFolio }

/-! ## Incident reporting (`reportarIncidenteTool.execute`, `src/tools.ts`) -/

/-- The incident categories of the `reportar_incidente` schema. -/
inductive TipoIncidente
  | fuga | sin_agua | contaminacion | infraestructura | otro
deriving Repr, DecidableEq

/-- `mapTipoToSupabase` from `src/tools.ts` (`infraestructura` and the
default case both map to `otro`). -/
def mapTipoToSupabase : TipoIncidente → String
  | .fuga => "fuga"
  | .sin_agua => "sin_agua"
  | .contaminacion => "agua_contaminada"
  | .infraestructura => "otro"
  | .otro => "otro"

/-- The validated input of `reportar_incidente`. -/
structure IncidenteInput where
  tipo : TipoIncidente
  descripcion : String
  direccion : Option String
  colonia : Option String
  alcaldia : Option String
  hogares_afectados : Option Nat
  duracion : Option String
  latitud : Option Rat
  longitud : Option Rat
deriving Repr, DecidableEq

/-- `texto`: `[descripcion, direccion].filter(Boolean).join(". ")`. -/
def incidenteTexto (i : IncidenteInput) : String :=
  String.intercalate ". " ([some i.descripcion, i.direccion].filterMap jsStrOrNone)

/-- The row inserted into the `quejas` table (PostgreSQL and Supabase paths
insert the same values). -/
structure QuejaRow where
  texto : String
  tipo : String
  alcaldia : Option String
  colonia : Option String
  latitud : Option Rat
  longitud : Option Rat
deriving Repr, DecidableEq

/-- The `quejas` insert payload built from the tool input. -/
def quejaRowOf (i : IncidenteInput) : QuejaRow :=
  { texto := incidenteTexto i
    tipo := mapTipoToSupabase i.tipo
    alcaldia := jsStrOrNone i.alcaldia
    colonia := jsStrOrNone i.colonia
    latitud := i.latitud
    longitud := i.longitud }

/-- Outcome of the Supabase insert: the resolved `{data, error}` pair with a
non-null `error` (`errField`), a thrown exception (`thrown`), or success
with the optional returned id. -/
inductive SupabaseOutcome
  | ok (id : Option Nat)
  | errField (msg : String)
  | thrown (msg : String)
deriving Repr, DecidableEq

/-- The result record of `reportar_incidente`'s `execute`. -/
structure IncidentResult where
  success : Bool
  incidente_id : Option String
  estado : Option String
  message : Option String
  error : Option String
deriving Repr, DecidableEq

/-- `reportarIncidenteTool.execute` from `src/tools.ts`.  `pgConfigured`
models `getDbPool()` returning a pool (a `postgresql://` URL is set);
`supabaseConfigured` models `getSupabase()` (URL and key set); the three
outcome parameters model the PostgreSQL insert, the Supabase insert and the
AquaHub HTTP call.  Only the branch the control flow reaches consumes its
outcome. -/
def reportarIncidente (pgConfigured : Bool) (pgOutcome : Except String (List Nat))
    (supabaseConfigured : Bool) (sbOutcome : SupabaseOutcome)
    (apiOutcome : Except String (String × String))
    (input : IncidenteInput) : IncidentResult :=
  let _row := quejaRowOf input
  if pgConfigured then
    match pgOutcome with
    | .ok rows =>
      { success := true
        incidente_id := rows.head?.map natToString
        estado := some "reportado"
        message := some ("Reporte guardado. Tu voz se vera en el mapa. ID: " ++
          (match rows.head? with | some n => natToString n | none => "ok") ++ ".")
        error := none }
    | .error e =>
      { success := false, incidente_id := none, estado := none, message := none
        error := some ("No se pudo guardar el reporte: " ++ e) }
  else if supabaseConfigured then
    match sbOutcome with
    | .ok id =>
      { success := true
        incidente_id := id.map natToString
        estado := some "reportado"
        message := some ("Reporte guardado. Tu voz se vera en el mapa. ID: " ++
          (match id with | some n => natToString n | none => "ok") ++ ".")
        error := none }
    | .errField m =>
      { success := false, incidente_id := none, estado := none, message := none
        error := some ("No se pudo guardar el reporte: " ++ m) }
    | .thrown m =>
      { success := false, incidente_id := none, estado := none, message := none
        error := some ("No se pudo reportar el incidente: " ++ m) }
  else
    match apiOutcome with
    | .ok p =>
      { success := true
        incidente_id := some p.1
        estado := some p.2
        message := some ("Incidente reportado exitosamente. ID: " ++ p.1 ++
          ". Un equipo revisara tu reporte.")
        error := none }
    | .error e =>
      { success := false, incidente_id := none, estado := none, message := none
        error := some ("No se pudo reportar el incidente: " ++ e) }

/-! ## Orchestrator turn models (`runWorkflow`, `src/agent.ts`)

The classification and persona-turn calls are LLM invocations; their
observed results enter the models as parameters.  Each model covers the
completed (non-thrown) turn of the corresponding `runWorkflow`. -/

/-- Message roles of the in-memory conversation history. -/
inductive Role
  | user | assistant
deriving Repr, DecidableEq

/-- A stored history item (`AgentInputItem` restricted to what the history
bounding logic observes: an opaque role/text pair). -/
structure HistMsg where
  role : Role
  text : String
deriving Repr, DecidableEq

/-- The outcome of `runAgentWithApproval`: final output text, new history
items, names of invoked tools. -/
structure AgentTurnResult where
  output : String
  newItems : List HistMsg
  toolsUsed : List String
deriving Repr, DecidableEq

/-- The history after Step 4's pushes and before the length cap: the user
message, then the turn's new items, or else a synthesised assistant message
when the output text is non-empty (truthy). -/
def appendedTurnHistory (hist : List HistMsg) (userMsg : HistMsg)
    (newItems : List HistMsg) (output : String) : List HistMsg :=
  hist ++ [userMsg] ++
    (if 0 < newItems.length then newItems
     else if output ≠ "" then [{ role := .assistant, text := output }]
     else [])

/-- Step 4 of every `runWorkflow` variant: push the turn's messages, then
keep only the last 20 when the stored history exceeds 20
(`history.slice(-20)`). -/
def persistTurnHistory (hist : List HistMsg) (userMsg : HistMsg)
    (newItems : List HistMsg) (output : String) : List HistMsg :=
  let h := appendedTurnHistory hist userMsg newItems output
  if 20 < h.length then h.drop (h.length - 20) else h

/-- The intent labels of the CEA classifier. -/
inductive CEAClassification
  | fuga | pagos | hablar_asesor | informacion | consumos | contrato | tickets
deriving Repr, DecidableEq

/-- The `createTicketDirect` input built by the CEA `runWorkflow` for the
`hablar_asesor` short-circuit (`conversation.contractNumber || null`). -/
def ceaAsesorTicketInput (contractNumber : Option String) (inputText : String) :
    CreateTicketInput :=
  { service_type := .urgente
    titulo := "Solicitud de contacto con asesor humano"
    descripcion := "El usuario solicitó hablar con un asesor humano. Mensaje original: " ++ inputText
    contract_number := jsStrOrNone contractNumber
    email := none
    ubicacion := none
    priority := some .urgente }

/-- Steps 2/3 of the CEA `runWorkflow`: the `hablar_asesor` short-circuit
awaits `createTicketDirect`, embeds `ticketResult.folio || "PENDING"` in a
canned reply and records `create_ticket`; every other label runs the routed
persona and takes over its output and tool list.  Returns (output text,
toolsUsed). -/
def ceaRespond (classification : CEAClassification) (contractNumber : Option String)
    (inputText : String)
    (dpGen : DateParts) (msGen : Nat) (folioQuery : Except Unit (List String))
    (insertOutcome : Except Unit (List (Nat × String)))
    (dpFb : DateParts) (msFb : Nat)
    (agentResult : AgentTurnResult) : String × List String :=
  if classification = .hablar_asesor then
    let ticketResult := createTicketDirect (ceaAsesorTicketInput contractNumber inputText)
      dpGen msGen folioQuery insertOutcome dpFb msFb
    let folio := if ticketResult.folio = "" then "PENDING" else ticketResult.folio
    ("He creado tu solicitud con el folio " ++ folio ++
      ". Te conectaré con un asesor humano. Por favor espera un momento 💧",
     ["create_ticket"])
  else
    (agentResult.output, agentResult.toolsUsed)

/-- The intent labels of the AquaHub classifier. -/
inductive AquaClassification
  | pedir_agua | reportar_incidente | consultar_pedido | alertas | proveedores
  | hablar_asesor | informacion
deriving Repr, DecidableEq

/-- The canned reply of the AquaHub `hablar_asesor` branch. -/
def AQUAHUB_ASESOR_TEXT : String :=
  "Entiendo que deseas hablar con una persona. Por favor contacta nuestra linea de atencion ciudadana o visita la oficina de tu alcaldia para atencion personalizada. Mientras tanto, puedo ayudarte con informacion sobre proveedores de agua, reportar incidentes o consultar alertas."

/-- Steps 2/3 of the AquaHub `runWorkflow`: `hablar_asesor` only yields the
canned advisory message (no ticket is created and `toolsUsed` stays empty);
other labels run the routed persona. -/
def aquahubRespond (classification : AquaClassification)
    (agentResult : AgentTurnResult) : String × List String :=
  if classification = .hablar_asesor then (AQUAHUB_ASESOR_TEXT, [])
  else (agentResult.output, agentResult.toolsUsed)

/-- `WELCOME_MESSAGE` from the WaterHub variant of `src/agent.ts`. -/
def WELCOME_MESSAGE : String :=
  "¡Hola! 👋 Bienvenido a WaterHub. Aquí tu voz cuenta: todo es anónimo y lo que subas se ve en el mapa para más transparencia y acción. ¿Quieres subir tu voz al mapa o saber cómo funciona?"

/-- The WaterHub `runWorkflow` response on a completed turn:
`isFirstMessage` is `conversation.history.length === 0` (checked before the
turn's messages are pushed), and the final output replaces the agent's
output with `WELCOME_MESSAGE` on the first message; `toolsUsed` always
comes from the agent turn.  Returns (output text, toolsUsed). -/
def waterhubRespond (historyAtTurnStart : List HistMsg)
    (agentResult : AgentTurnResult) : String × List String :=
  let isFirstMessage := historyAtTurnStart.length = 0
  ((if isFirstMessage then WELCOME_MESSAGE else agentResult.output),
   agentResult.toolsUsed)

/-! ## Digit-string lemmas -/

theorem natDigitsAux_fuel {f g n : Nat} (hf : n < f) (hg : n < g) :
    natDigitsAux f n = natDigitsAux g n := by
  induction f using Nat.strong_induction_on generalizing g n with
  | _ f ih =>
    match f, g, hf, hg with
    | f + 1, g + 1, hf, hg =>
      unfold natDigitsAux
      by_cases h : n < 10
      · simp [h]
      · simp only [h, if_false]
        have hdiv : n / 10 < n := Nat.div_lt_self (by omega) (by omega)
        rw [ih f (by omega) (show n / 10 < f by omega) (show n / 10 < g by omega)]

theorem natDigits_eq_single {n : Nat} (h : n < 10) : natDigits n = [digitChar n] := by
  unfold natDigits natDigitsAux
  simp [h]

theorem natDigits_eq_append {n : Nat} (h : 10 ≤ n) :
    natDigits n = natDigits (n / 10) ++ [digitChar (n % 10)] := by
  unfold natDigits
  conv_lhs => rw [natDigitsAux]
  simp only [Nat.not_lt.mpr h, if_false]
  rw [natDigitsAux_fuel (show n / 10 < n by exact Nat.div_lt_self (by omega) (by omega))
    (Nat.lt_succ_self _)]

theorem isDigitCh_digitChar {n : Nat} (h : n < 10) : isDigitCh (digitChar n) = true := by
  interval_cases n <;> decide

theorem digitChar_toNat {n : Nat} (h : n < 10) : (digitChar n).toNat - 48 = n := by
  interval_cases n <;> decide

theorem natDigits_all_digit (n : Nat) : (natDigits n).all isDigitCh = true := by
  induction n using Nat.strong_induction_on with
  | _ n ih =>
    by_cases h : n < 10
    · rw [natDigits_eq_single h]
      simp [isDigitCh_digitChar h]
    · rw [natDigits_eq_append (Nat.not_lt.mp h)]
      simp [List.all_append, ih (n / 10) (Nat.div_lt_self (by omega) (by omega)),
        isDigitCh_digitChar (Nat.mod_lt n (by omega))]

theorem natDigits_len1 {n : Nat} (h : n < 10) : (natDigits n).length = 1 := by
  rw [natDigits_eq_single h]
  rfl

theorem natDigits_len2 {n : Nat} (h1 : 10 ≤ n) (h2 : n < 100) : (natDigits n).length = 2 := by
  rw [natDigits_eq_append h1]
  simp [natDigits_len1 (show n / 10 < 10 by omega)]

theorem natDigits_len3 {n : Nat} (h1 : 100 ≤ n) (h2 : n < 1000) : (natDigits n).length = 3 := by
  rw [natDigits_eq_append (by omega)]
  simp [natDigits_len2 (show 10 ≤ n / 10 by omega) (show n / 10 < 100 by omega)]

theorem natDigits_len4 {n : Nat} (h1 : 1000 ≤ n) (h2 : n < 10000) : (natDigits n).length = 4 := by
  rw [natDigits_eq_append (by omega)]
  simp [natDigits_len3 (show 100 ≤ n / 10 by omega) (show n / 10 < 1000 by omega)]

theorem natDigits_len_le2 {n : Nat} (h : n < 100) : (natDigits n).length ≤ 2 := by
  by_cases h1 : n < 10
  · simp [natDigits_len1 h1]
  · simp [natDigits_len2 (by omega) h]

theorem natDigits_len_le4 {n : Nat} (h : n < 10000) : (natDigits n).length ≤ 4 := by
  by_cases h1 : n < 10
  · simp [natDigits_len1 h1]
  by_cases h2 : n < 100
  · simp [natDigits_len2 (by omega) h2]
  by_cases h3 : n < 1000
  · simp [natDigits_len3 (by omega) h3]
  · simp [natDigits_len4 (by omega) h]

theorem natDigits_len_ge4 {n : Nat} (h : 1000 ≤ n) : 4 ≤ (natDigits n).length := by
  induction n using Nat.strong_induction_on with
  | _ n ih =>
    by_cases hlt : n < 10000
    · exact (natDigits_len4 h hlt).ge
    · rw [natDigits_eq_append (by omega)]
      have h4 := ih (n / 10) (Nat.div_lt_self (by omega) (by omega)) (by omega)
      simp
      omega

theorem foldl_digits (n : Nat) : ∀ acc : Nat,
    (natDigits n).foldl (fun a c => a * 10 + (c.toNat - 48)) acc
      = acc * 10 ^ (natDigits n).length + n := by
  induction n using Nat.strong_induction_on with
  | _ n ih =>
    intro acc
    by_cases h : n < 10
    · rw [natDigits_eq_single h]
      simp [digitChar_toNat h]
    · rw [natDigits_eq_append (Nat.not_lt.mp h)]
      rw [List.foldl_append]
      simp only [List.foldl_cons, List.foldl_nil]
      rw [ih (n / 10) (Nat.div_lt_self (by omega) (by omega)) acc]
      rw [digitChar_toNat (Nat.mod_lt n (by omega))]
      rw [List.length_append, List.length_singleton]
      calc (acc * 10 ^ (natDigits (n / 10)).length + n / 10) * 10 + n % 10
          = acc * (10 ^ (natDigits (n / 10)).length * 10) + (10 * (n / 10) + n % 10) := by ring
        _ = acc * 10 ^ ((natDigits (n / 10)).length + 1) + n := by
            rw [Nat.div_add_mod, pow_succ]

theorem digitsVal_natDigits (n : Nat) : digitsVal (natDigits n) = n := by
  unfold digitsVal
  rw [foldl_digits]
  simp

theorem digitsVal_replicate_zero (j : Nat) (l : List Char) :
    digitsVal (List.replicate j '0' ++ l) = digitsVal l := by
  induction j with
  | zero => simp
  | succ j ih =>
    rw [List.replicate_succ, List.cons_append]
    unfold digitsVal at ih ⊢
    rw [List.foldl_cons]
    have h0 : (0 : Nat) * 10 + ('0'.toNat - 48) = 0 := by decide
    rw [h0]
    exact ih

theorem all_drop {p : Char → Bool} {l : List Char} (n : Nat) (h : l.all p = true) :
    (l.drop n).all p = true := by
  simp only [List.all_eq_true] at h ⊢
  intro x hx
  exact h x (List.mem_of_mem_drop hx)

/-! ## Padding lemmas -/

theorem jsPadStart_data (s : String) (t : Nat) (c : Char) :
    (jsPadStart s t c).data = List.replicate (t - s.data.length) c ++ s.data := by
  unfold jsPadStart
  by_cases h : t ≤ s.length
  · have hl : s.length = s.data.length := rfl
    have : t - s.data.length = 0 := by omega
    simp [h, this]
  · simp [h, String.data_append]

theorem jsPadStart_length (s : String) (t : Nat) (c : Char) :
    ((jsPadStart s t c).data).length = max s.data.length t := by
  rw [jsPadStart_data]
  simp
  omega

theorem jsPadStart_all {p : Char → Bool} (s : String) (t : Nat) (c : Char)
    (hc : p c = true) (hs : s.data.all p = true) :
    ((jsPadStart s t c).data).all p = true := by
  rw [jsPadStart_data, List.all_append]
  simp only [Bool.and_eq_true]
  constructor
  · simp only [List.all_eq_true]
    intro x hx
    rw [List.eq_of_mem_replicate hx]
    exact hc
  · exact hs

theorem pad4_all_digit (k : Nat) : ((pad4 k).data).all isDigitCh = true :=
  jsPadStart_all _ _ _ (by decide) (natDigits_all_digit k)

theorem pad4_len {k : Nat} (h : k ≤ 9999) : ((pad4 k).data).length = 4 := by
  unfold pad4
  rw [jsPadStart_length]
  have : (natDigits k).length ≤ 4 := natDigits_len_le4 (by omega)
  have hd : (natToString k).data = natDigits k := rfl
  rw [hd]
  omega

theorem digitsVal_pad4 (k : Nat) : digitsVal (pad4 k).data = k := by
  unfold pad4
  rw [jsPadStart_data]
  have hd : (natToString k).data = natDigits k := rfl
  rw [hd, digitsVal_replicate_zero, digitsVal_natDigits]

theorem pad2_all_digit (m : Nat) : ((pad2 m).data).all isDigitCh = true :=
  jsPadStart_all _ _ _ (by decide) (natDigits_all_digit m)

theorem pad2_len {m : Nat} (h : m ≤ 99) : ((pad2 m).data).length = 2 := by
  unfold pad2
  rw [jsPadStart_length]
  have : (natDigits m).length ≤ 2 := natDigits_len_le2 (by omega)
  have hd : (natToString m).data = natDigits m := rfl
  rw [hd]
  omega

/-! ## Date segment and folio format lemmas -/

theorem dateStr_data (dp : DateParts) :
    (dateStr dp).data = natDigits dp.year ++ ((pad2 dp.month).data ++ (pad2 dp.day).data) := by
  unfold dateStr
  rw [String.data_append, String.data_append, List.append_assoc]
  rfl

theorem dateStr_len (dp : DateParts) (hy1 : 1000 ≤ dp.year) (hy2 : dp.year ≤ 9999)
    (hm : dp.month ≤ 99) (hd : dp.day ≤ 99) : ((dateStr dp).data).length = 8 := by
  rw [dateStr_data]
  simp [natDigits_len4 hy1 (by omega), pad2_len hm, pad2_len hd]

theorem dateStr_all_digit (dp : DateParts) : ((dateStr dp).data).all isDigitCh = true := by
  rw [dateStr_data]
  simp [List.all_append, natDigits_all_digit, pad2_all_digit]

theorem ticketCode_len (tt : TicketType) : (TICKET_CODES tt).data.length = 3 := by
  cases tt <;> decide

theorem ticketCode_upper (tt : TicketType) : (TICKET_CODES tt).data.all isUpperCh = true := by
  cases tt <;> decide

theorem matchesFolioFormat_build (s : String) (code d8 s4 : List Char)
    (hs : s.data = code ++ '-' :: (d8 ++ '-' :: s4))
    (hc3 : code.length = 3) (hcU : code.all isUpperCh = true)
    (h8 : d8.length = 8) (h8d : d8.all isDigitCh = true)
    (h4 : s4.length = 4) (h4d : s4.all isDigitCh = true) :
    matchesFolioFormat s = true := by
  match code, hc3 with
  | [a, b, c], _ =>
    simp only [List.all_cons, List.all_nil, Bool.and_eq_true, Bool.and_true] at hcU
    unfold matchesFolioFormat
    rw [hs]
    simp only [List.cons_append, List.nil_append]
    rw [List.take_left' h8, List.drop_left' h8]
    simp [hcU, h8, h8d, h4, h4d]

/-! ## Sequence extraction lemmas -/

theorem extractSeq_eq (s : String) (q s4 : List Char)
    (hs : s.data = q ++ '-' :: s4) (h4 : s4.length = 4) (h4d : s4.all isDigitCh = true) :
    extractSeq s = some (digitsVal s4) := by
  unfold extractSeq
  rw [hs]
  have hlen : (q ++ '-' :: s4).length = q.length + 5 := by
    simp [List.length_append, h4]
  have hsplit : q ++ '-' :: s4 = (q ++ ['-']) ++ s4 := by simp
  have hdrop : (q ++ '-' :: s4).drop (q.length + 5 - 4) = s4 := by
    rw [hsplit]
    have : q.length + 5 - 4 = (q ++ ['-']).length := by simp
    rw [this, List.drop_left]
  have hget : (q ++ '-' :: s4)[q.length + 5 - 5]? = some '-' := by
    have : q.length + 5 - 5 = q.length := by omega
    rw [this]
    rw [List.getElem?_append_right (le_refl q.length)]
    simp
  simp only [hlen, hdrop, hget]
  simp [h4d]

theorem takeWhile_all_append (p : Char → Bool) (l₁ : List Char) (x : Char) (l₂ : List Char)
    (h₁ : l₁.all p = true) (hx : p x = false) :
    (l₁ ++ x :: l₂).takeWhile p = l₁ := by
  induction l₁ with
  | nil => simp [List.takeWhile_cons, hx]
  | cons c cs ih =>
    simp only [List.all_cons, Bool.and_eq_true] at h₁
    simp [List.takeWhile_cons, h₁.1, ih h₁.2]

theorem trailingNumber_eq (s : String) (q s4 : List Char)
    (hs : s.data = q ++ '-' :: s4) (h4d : s4.all isDigitCh = true) :
    trailingNumber s = digitsVal s4 := by
  unfold trailingNumber
  rw [hs]
  have hrev : (q ++ '-' :: s4).reverse = s4.reverse ++ '-' :: q.reverse := by simp
  rw [hrev, takeWhile_all_append isDigitCh s4.reverse '-' q.reverse
    (by simpa using h4d) (by decide), List.reverse_reverse]

/-! ## Folio generator shape lemmas -/

theorem dash_data : ("-" : String).data = ['-'] := rfl

theorem genPG_ok_data (tt : TicketType) (dp : DateParts) (ms : Nat) (rows : List String) :
    (generateTicketFolioFromPG tt dp ms (.ok rows)).data =
      (TICKET_CODES tt).data ++ '-' :: ((dateStr dp).data ++ '-' :: (pad4 (pgNextSeq rows)).data) := by
  unfold generateTicketFolioFromPG
  simp [String.data_append, List.append_assoc, dash_data]

theorem genPG_error_data (tt : TicketType) (dp : DateParts) (ms : Nat) :
    (generateTicketFolioFromPG tt dp ms (.error ())).data =
      (TICKET_CODES tt).data ++ '-' :: ((dateStr dp).data ++ '-' :: (sliceLast4 (natToString ms)).data) := by
  unfold generateTicketFolioFromPG
  simp [String.data_append, List.append_assoc, dash_data]

theorem genLocal_data (tt : TicketType) (dp : DateParts) (ms : Nat) :
    (generateTicketFolio tt dp ms).data =
      (TICKET_CODES tt).data ++ '-' :: ((dateStr dp).data ++ '-' :: (sliceLast4 (natToString ms)).data) := by
  unfold generateTicketFolio
  simp [String.data_append, List.append_assoc, dash_data]

theorem genDB_eq_genPG (tt : TicketType) (dp : DateParts) (ms : Nat)
    (q : Except Unit (List String)) :
    generateTicketFolioFromDB tt dp ms q = generateTicketFolioFromPG tt dp ms q := by
  cases q <;> rfl

theorem sliceLast4_len {ms : Nat} (h : 1000 ≤ ms) :
    ((sliceLast4 (natToString ms)).data).length = 4 := by
  unfold sliceLast4
  have hd : (natToString ms).data = natDigits ms := rfl
  have h4 := natDigits_len_ge4 h
  simp [hd]
  omega

theorem sliceLast4_all_digit (ms : Nat) :
    ((sliceLast4 (natToString ms)).data).all isDigitCh = true := by
  unfold sliceLast4
  have hd : (natToString ms).data = natDigits ms := rfl
  simp only [hd]
  exact all_drop _ (natDigits_all_digit ms)

/-! ## Claim C1 — folio format -/

/-- C1 (counterexample): the claim "every folio produced by the folio
generators, for every store state, matches the format regex" fails as
stated: when the store's greatest folio for the prefix ends in `9999`, the
PostgreSQL-backed generator pads `10000` without truncation and emits a
5-digit sequence segment, which does not match the 4-digit format. -/
theorem folio_format_counterexample :
    matchesFolioFormat
      (generateTicketFolioFromPG .fuga ⟨2026, 1, 6⟩ 1736150009731
        (.ok ["FUG-20260106-9999"])) = false := by
  decide

/-- C1 (amended): every folio produced by `generateTicketFolioFromPG`,
`generateTicketFolioFromDB` (any query outcome — success or failure) and
the local fallback `generateTicketFolio` matches `[A-Z]{3}`, dash, 8
digits, dash, 4 digits — provided the computed sequence number does not
exceed 9999 (the clock hypotheses hold for every real date: a 4-digit
year, valid month and day, and an epoch-milliseconds reading of at least
four decimal digits). -/
theorem folio_format_all_generators (tt : TicketType) (dp : DateParts) (nowMs : Nat)
    (q : Except Unit (List String))
    (hy1 : 1000 ≤ dp.year) (hy2 : dp.year ≤ 9999) (hm : dp.month ≤ 99) (hd : dp.day ≤ 99)
    (hms : 1000 ≤ nowMs)
    (hq : ∀ rows, q = .ok rows → pgNextSeq rows ≤ 9999) :
    matchesFolioFormat (generateTicketFolioFromPG tt dp nowMs q) = true ∧
    matchesFolioFormat (generateTicketFolioFromDB tt dp nowMs q) = true ∧
    matchesFolioFormat (generateTicketFolio tt dp nowMs) = true := by
  have hcode3 := ticketCode_len tt
  have hcodeU := ticketCode_upper tt
  have hdate8 := dateStr_len dp hy1 hy2 hm hd
  have hdated := dateStr_all_digit dp
  have hpg : matchesFolioFormat (generateTicketFolioFromPG tt dp nowMs q) = true := by
    cases q with
    | error e =>
      cases e
      exact matchesFolioFormat_build _ _ _ _ (genPG_error_data tt dp nowMs)
        hcode3 hcodeU hdate8 hdated (sliceLast4_len hms) (sliceLast4_all_digit nowMs)
    | ok rows =>
      exact matchesFolioFormat_build _ _ _ _ (genPG_ok_data tt dp nowMs rows)
        hcode3 hcodeU hdate8 hdated (pad4_len (hq rows rfl)) (pad4_all_digit _)
  refine ⟨hpg, ?_, ?_⟩
  · rw [genDB_eq_genPG]
    exact hpg
  · exact matchesFolioFormat_build _ _ _ _ (genLocal_data tt dp nowMs)
      hcode3 hcodeU hdate8 hdated (sliceLast4_len hms) (sliceLast4_all_digit nowMs)

/-- C1 (witness): the amended format theorem applied at a concrete date,
timestamp and store state. -/
theorem folio_format_witness :
    matchesFolioFormat
      (generateTicketFolioFromPG .fuga ⟨2026, 1, 6⟩ 1736150009731
        (.ok ["FUG-20260106-0007"])) = true ∧
    matchesFolioFormat
      (generateTicketFolioFromDB .fuga ⟨2026, 1, 6⟩ 1736150009731
        (.ok ["FUG-20260106-0007"])) = true ∧
    matchesFolioFormat (generateTicketFolio .fuga ⟨2026, 1, 6⟩ 1736150009731) = true :=
  folio_format_all_generators .fuga ⟨2026, 1, 6⟩ 1736150009731
    (.ok ["FUG-20260106-0007"]) (by decide) (by decide) (by decide) (by decide)
    (by decide) (fun rows hr => by cases hr; decide)

/-! ## Claim C2 — per-category-per-day sequence monotonicity -/

/-- C2 (counterexample): the monotonicity claim fails as stated.  Both
store queries succeed; the first call observes the stored maximum
`FUG-20260106-9999` and mints `FUG-20260106-10000`; the second call's
query observes exactly the folio the first call inserted, but the
trailing-4-digit regex no longer matches a 5-digit sequence, so the second
call restarts at `0001`: its numeric suffix is strictly SMALLER than the
first call's. -/
theorem folio_seq_counterexample :
    trailingNumber
        (generateTicketFolioFromPG .fuga ⟨2026, 1, 6⟩ 1736150009731
          (.ok [generateTicketFolioFromPG .fuga ⟨2026, 1, 6⟩ 1736150009731
            (.ok ["FUG-20260106-9999"])])) <
      trailingNumber
        (generateTicketFolioFromPG .fuga ⟨2026, 1, 6⟩ 1736150009731
          (.ok ["FUG-20260106-9999"])) := by
  decide

/-- C2 (amended): for two `generateTicketFolioFromPG` calls for the same
category and date whose store queries both succeed, where the second
query's result row is exactly the folio generated by the first call, the
second folio's numeric suffix is the first's plus one (hence strictly
greater), provided the first call's computed sequence stays within four
digits; and the sequence starts at 1 (`0001`) when no folio with the
prefix exists. -/
theorem folio_seq_monotone (tt : TicketType) (dp : DateParts) (nowMs : Nat)
    (rows : List String) (hb : pgNextSeq rows ≤ 9999) :
    trailingNumber (generateTicketFolioFromPG tt dp nowMs (.ok rows)) = pgNextSeq rows ∧
    trailingNumber (generateTicketFolioFromPG tt dp nowMs
        (.ok [generateTicketFolioFromPG tt dp nowMs (.ok rows)])) = pgNextSeq rows + 1 ∧
    trailingNumber (generateTicketFolioFromPG tt dp nowMs (.ok rows)) <
      trailingNumber (generateTicketFolioFromPG tt dp nowMs
        (.ok [generateTicketFolioFromPG tt dp nowMs (.ok rows)])) ∧
    (rows = [] → pgNextSeq rows = 1) := by
  have h1 : trailingNumber (generateTicketFolioFromPG tt dp nowMs (.ok rows))
      = pgNextSeq rows := by
    rw [trailingNumber_eq _ ((TICKET_CODES tt).data ++ '-' :: (dateStr dp).data)
      (pad4 (pgNextSeq rows)).data (by rw [genPG_ok_data]; simp) (pad4_all_digit _)]
    exact digitsVal_pad4 _
  have hseq : pgNextSeq [generateTicketFolioFromPG tt dp nowMs (.ok rows)]
      = pgNextSeq rows + 1 := by
    unfold pgNextSeq
    simp only [List.head?_cons]
    rw [extractSeq_eq _ ((TICKET_CODES tt).data ++ '-' :: (dateStr dp).data)
      (pad4 (pgNextSeq rows)).data (by rw [genPG_ok_data]; simp) (pad4_len hb)
      (pad4_all_digit _)]
    rw [digitsVal_pad4]
    rfl
  have h2 : trailingNumber (generateTicketFolioFromPG tt dp nowMs
      (.ok [generateTicketFolioFromPG tt dp nowMs (.ok rows)])) = pgNextSeq rows + 1 := by
    rw [trailingNumber_eq _ ((TICKET_CODES tt).data ++ '-' :: (dateStr dp).data)
      (pad4 (pgNextSeq [generateTicketFolioFromPG tt dp nowMs (.ok rows)])).data
      (by rw [genPG_ok_data]; simp) (pad4_all_digit _)]
    rw [digitsVal_pad4, hseq]
  refine ⟨h1, h2, ?_, ?_⟩
  · rw [h1, h2]
    omega
  · intro h
    subst h
    rfl

/-- C2 (witness): the amended monotonicity theorem applied at a concrete
store state (maximum existing sequence `0007`). -/
theorem folio_seq_monotone_witness :
    trailingNumber (generateTicketFolioFromPG .fuga ⟨2026, 1, 6⟩ 1736150009731
        (.ok ["FUG-20260106-0007"])) = pgNextSeq ["FUG-20260106-0007"] ∧
    trailingNumber (generateTicketFolioFromPG .fuga ⟨2026, 1, 6⟩ 1736150009731
        (.ok [generateTicketFolioFromPG .fuga ⟨2026, 1, 6⟩ 1736150009731
          (.ok ["FUG-20260106-0007"])])) = pgNextSeq ["FUG-20260106-0007"] + 1 ∧
    trailingNumber (generateTicketFolioFromPG .fuga ⟨2026, 1, 6⟩ 1736150009731
        (.ok ["FUG-20260106-0007"])) <
      trailingNumber (generateTicketFolioFromPG .fuga ⟨2026, 1, 6⟩ 1736150009731
        (.ok [generateTicketFolioFromPG .fuga ⟨2026, 1, 6⟩ 1736150009731
          (.ok ["FUG-20260106-0007"])])) ∧
    (["FUG-20260106-0007"] = ([] : List String) → pgNextSeq ["FUG-20260106-0007"] = 1) :=
  folio_seq_monotone .fuga ⟨2026, 1, 6⟩ 1736150009731 ["FUG-20260106-0007"] (by decide)

/-! ## `parseFloat` evaluation lemmas -/

theorem parseDigitsAux_digits (l : List Char) (hd : l.all isDigitCh = true) :
    ∀ acc cnt, parseDigitsAux acc cnt l =
      (l.foldl (fun a c => a * 10 + (c.toNat - 48)) acc, cnt + l.length, []) := by
  induction l with
  | nil => intro acc cnt; simp [parseDigitsAux]
  | cons c cs ih =>
    intro acc cnt
    simp only [List.all_cons, Bool.and_eq_true] at hd
    unfold parseDigitsAux
    rw [if_pos hd.1, ih hd.2]
    simp [List.length_cons]
    omega

theorem isDigitCh_not_ws {c : Char} (h : isDigitCh c = true) : c.isWhitespace = false := by
  have hne : c ≠ ' ' ∧ c ≠ '\t' ∧ c ≠ '\r' ∧ c ≠ '\n' := by
    refine ⟨?_, ?_, ?_, ?_⟩ <;> (intro he; subst he; exact absurd h (by decide))
  simp [Char.isWhitespace, hne.1, hne.2.1, hne.2.2.1, hne.2.2.2]

theorem isDigitCh_not_sign {c : Char} (h : isDigitCh c = true) : c ≠ '-' ∧ c ≠ '+' := by
  refine ⟨?_, ?_⟩ <;> (intro he; subst he; exact absurd h (by decide))

theorem jsSignSplit_digit {c : Char} (cs : List Char) (h : isDigitCh c = true) :
    jsSignSplit (c :: cs) = (false, c :: cs) := by
  unfold jsSignSplit
  split
  next heq =>
    injection heq with hc _
    subst hc
    exact absurd h (by decide)
  next heq =>
    injection heq with hc _
    subst hc
    exact absurd h (by decide)
  next => rfl

theorem jsParseFloat_digits (s : String) (hne : s.data ≠ []) (hd : s.data.all isDigitCh = true) :
    jsParseFloat s = (digitsVal s.data : Rat) := by
  unfold jsParseFloat
  match hds : s.data, hne, hd with
  | c :: cs, _, hd =>
    have hdc : isDigitCh c = true := by
      simp only [List.all_cons, Bool.and_eq_true] at hd
      exact hd.1
    have hdrop : (c :: cs).dropWhile (fun x => x.isWhitespace) = c :: cs := by
      rw [List.dropWhile_cons]
      simp [isDigitCh_not_ws hdc]
    simp only [hdrop, jsSignSplit_digit cs hdc]
    rw [parseDigitsAux_digits (c :: cs) hd 0 0]
    simp only [Nat.zero_add]
    have : ¬ (c :: cs).length = 0 := by simp
    simp only [this, if_false]
    rfl

theorem jsParseFloat_zero : jsParseFloat "0" = 0 := by
  rw [jsParseFloat_digits "0" (by decide) (by decide)]
  norm_num [show digitsVal "0".data = 0 from by decide]

/-! ## Fault-message lemmas -/

theorem jsOrElse_ne_empty (a : Option String) (b : String) (hb : b ≠ "") :
    jsOrElse a b ≠ "" := by
  unfold jsOrElse
  cases a with
  | none => exact hb
  | some s =>
    by_cases h : s = ""
    · simp [h, hb]
    · simp [h]

theorem faultMsgOf_ne_empty (xml : String) : faultMsgOf xml ≠ "" :=
  jsOrElse_ne_empty _ _ (jsOrElse_ne_empty _ _ (by decide))

/-! ## Claim C3 — ticket creation never fails -/

/-- C3 (counterexample): the claim requires a non-empty `warning` whenever
the insert OR the folio-sequence query fails.  When only the folio query
fails (timestamp fallback folio) but the insert succeeds, the success
branch returns no `warning` at all. -/
theorem ticket_warning_counterexample :
    (createTicketDirect
        { service_type := .fuga, titulo := "Fuga en via publica",
          descripcion := "Reporte de fuga", contract_number := none, email := none,
          ubicacion := none, priority := some .alta }
        ⟨2026, 1, 6⟩ 1736150009731 (.error ()) (.ok [(1, "FUG-20260106-9731")])
        ⟨2026, 1, 6⟩ 1736150009731).warning = none ∧
    (createTicketDirect
        { service_type := .fuga, titulo := "Fuga en via publica",
          descripcion := "Reporte de fuga", contract_number := none, email := none,
          ubicacion := none, priority := some .alta }
        ⟨2026, 1, 6⟩ 1736150009731 (.error ()) (.ok [(1, "FUG-20260106-9731")])
        ⟨2026, 1, 6⟩ 1736150009731).success = true := by
  exact ⟨rfl, rfl⟩

/-- C3 (amended): `createTicketDirect` reports `success: true` under every
store state; and whenever the insert fails (thrown error, or an empty
`RETURNING` row set, which throws at `result[0].folio`), the result carries
the locally generated fallback folio and the fixed non-empty warning.  When
only the folio-sequence query fails but the insert succeeds, the result is
still a success carrying the inserted (timestamp-fallback) folio — with no
warning. -/
theorem ticket_creation_never_fails (input : CreateTicketInput)
    (dpGen : DateParts) (msGen : Nat) (folioQuery : Except Unit (List String))
    (insertOutcome : Except Unit (List (Nat × String))) (dpFb : DateParts) (msFb : Nat) :
    (createTicketDirect input dpGen msGen folioQuery insertOutcome dpFb msFb).success = true ∧
    ((∀ r rest, insertOutcome ≠ .ok (r :: rest)) →
      (createTicketDirect input dpGen msGen folioQuery insertOutcome dpFb msFb).warning
          = some "Ticket creado localmente, sincronización pendiente" ∧
      (createTicketDirect input dpGen msGen folioQuery insertOutcome dpFb msFb).folio
          = generateTicketFolio input.service_type dpFb msFb) := by
  cases insertOutcome with
  | error e => exact ⟨rfl, fun _ => ⟨rfl, rfl⟩⟩
  | ok rows =>
    cases rows with
    | nil => exact ⟨rfl, fun _ => ⟨rfl, rfl⟩⟩
    | cons r rest => exact ⟨rfl, fun h => absurd rfl (h r rest)⟩

/-- C3 (witness): the amended theorem at a concrete unreachable store
(both the folio query and the insert throw). -/
theorem ticket_creation_never_fails_witness :
    (createTicketDirect
        { service_type := .fuga, titulo := "Fuga en via publica",
          descripcion := "Reporte de fuga", contract_number := none, email := none,
          ubicacion := none, priority := some .alta }
        ⟨2026, 1, 6⟩ 1736150009731 (.error ()) (.error ())
        ⟨2026, 1, 6⟩ 1736150009742).success = true ∧
    (createTicketDirect
        { service_type := .fuga, titulo := "Fuga en via publica",
          descripcion := "Reporte de fuga", contract_number := none, email := none,
          ubicacion := none, priority := some .alta }
        ⟨2026, 1, 6⟩ 1736150009731 (.error ()) (.error ())
        ⟨2026, 1, 6⟩ 1736150009742).warning
        = some "Ticket creado localmente, sincronización pendiente" ∧
    (createTicketDirect
        { service_type := .fuga, titulo := "Fuga en via publica",
          descripcion := "Reporte de fuga", contract_number := none, email := none,
          ubicacion := none, priority := some .alta }
        ⟨2026, 1, 6⟩ 1736150009731 (.error ()) (.error ())
        ⟨2026, 1, 6⟩ 1736150009742).folio
        = generateTicketFolio .fuga ⟨2026, 1, 6⟩ 1736150009742 := by
  have h := ticket_creation_never_fails
    { service_type := .fuga, titulo := "Fuga en via publica",
      descripcion := "Reporte de fuga", contract_number := none, email := none,
      ubicacion := none, priority := some .alta }
    ⟨2026, 1, 6⟩ 1736150009731 (.error ()) (.error ()) ⟨2026, 1, 6⟩ 1736150009742
  have h2 := h.2 (fun r rest hc => by cases hc)
  exact ⟨h.1, h2.1, h2.2⟩

/-! ## Claim C4 — human-agent short-circuit -/

/-- C4 (counterexample): the claim, quantified over the cited orchestrators,
fails in the AquaHub variant: its `hablar_asesor` branch returns the canned
advisory text without creating any ticket, and `toolsUsed` stays empty (it
does not record a ticket-creation tool). -/
theorem human_handoff_counterexample :
    (aquahubRespond .hablar_asesor
        { output := "Texto del agente", newItems := [], toolsUsed := [] }).2 = [] ∧
    (aquahubRespond .hablar_asesor
        { output := "Texto del agente", newItems := [], toolsUsed := [] }).1
      = AQUAHUB_ASESOR_TEXT := by
  exact ⟨rfl, rfl⟩

/-- C4 (amended): in the CEA orchestrator the claim holds: on the
`hablar_asesor` label the turn does not consume the persona result (the
response is the same for every persona outcome), it awaits
`createTicketDirect` on the urgent service type with urgent priority, the
canned acknowledgement embeds that ticket's folio, and `toolsUsed` is
exactly `["create_ticket"]`.  In the AquaHub orchestrator the same label
produces only a canned referral with no ticket. -/
theorem human_handoff_short_circuit (contractNumber : Option String) (inputText : String)
    (dpGen : DateParts) (msGen : Nat) (folioQuery : Except Unit (List String))
    (insertOutcome : Except Unit (List (Nat × String))) (dpFb : DateParts) (msFb : Nat)
    (agentResult : AgentTurnResult) :
    (ceaRespond .hablar_asesor contractNumber inputText dpGen msGen folioQuery
        insertOutcome dpFb msFb agentResult).2 = ["create_ticket"] ∧
    ((createTicketDirect (ceaAsesorTicketInput contractNumber inputText)
          dpGen msGen folioQuery insertOutcome dpFb msFb).folio ≠ "" →
      ∃ pre post, (ceaRespond .hablar_asesor contractNumber inputText dpGen msGen folioQuery
          insertOutcome dpFb msFb agentResult).1
        = pre ++ (createTicketDirect (ceaAsesorTicketInput contractNumber inputText)
            dpGen msGen folioQuery insertOutcome dpFb msFb).folio ++ post) ∧
    (∀ other : AgentTurnResult,
      ceaRespond .hablar_asesor contractNumber inputText dpGen msGen folioQuery
          insertOutcome dpFb msFb other
        = ceaRespond .hablar_asesor contractNumber inputText dpGen msGen folioQuery
            insertOutcome dpFb msFb agentResult) ∧
    (ceaAsesorTicketInput contractNumber inputText).service_type = .urgente ∧
    (buildTicketRow (ceaAsesorTicketInput contractNumber inputText)
        (createTicketDirect (ceaAsesorTicketInput contractNumber inputText)
          dpGen msGen folioQuery insertOutcome dpFb msFb).folio).priority = "urgent" := by
  refine ⟨rfl, ?_, fun other => rfl, rfl, rfl⟩
  intro hfolio
  unfold ceaRespond
  rw [if_pos rfl]
  simp only []
  rw [if_neg hfolio]
  exact ⟨"He creado tu solicitud con el folio ",
    ". Te conectaré con un asesor humano. Por favor espera un momento 💧", rfl⟩

/-- C4 (witness): the CEA short-circuit theorem at a concrete turn whose
insert succeeds with folio `URG-20260106-0001`. -/
theorem human_handoff_witness :
    (ceaRespond .hablar_asesor none "Quiero hablar con un asesor" ⟨2026, 1, 6⟩ 1736150009731
        (.error ()) (.ok [(5, "URG-20260106-0001")]) ⟨2026, 1, 6⟩ 1736150009731
        { output := "", newItems := [], toolsUsed := [] }).2 = ["create_ticket"] ∧
    ∃ pre post,
      (ceaRespond .hablar_asesor none "Quiero hablar con un asesor" ⟨2026, 1, 6⟩ 1736150009731
          (.error ()) (.ok [(5, "URG-20260106-0001")]) ⟨2026, 1, 6⟩ 1736150009731
          { output := "", newItems := [], toolsUsed := [] }).1
        = pre ++ (createTicketDirect
            (ceaAsesorTicketInput none "Quiero hablar con un asesor")
            ⟨2026, 1, 6⟩ 1736150009731 (.error ()) (.ok [(5, "URG-20260106-0001")])
            ⟨2026, 1, 6⟩ 1736150009731).folio ++ post := by
  have h := human_handoff_short_circuit none "Quiero hablar con un asesor"
    ⟨2026, 1, 6⟩ 1736150009731 (.error ()) (.ok [(5, "URG-20260106-0001")])
    ⟨2026, 1, 6⟩ 1736150009731 { output := "", newItems := [], toolsUsed := [] }
  exact ⟨h.1, h.2.1 (by decide)⟩

/-! ## Claim C5 — parser fault detection -/

/-- C5: every payload containing a fault marker makes each of the three
parsers return `success: false` with a non-empty error message and no data
payload (no field extraction result is exposed). -/
theorem parser_fault_detection (xml : String) (h : hasFaultMarker xml = true) :
    ((parseDeudaResponse xml).success = false ∧
      (∃ e, (parseDeudaResponse xml).error = some e ∧ e ≠ "") ∧
      (parseDeudaResponse xml).data = none) ∧
    ((parseConsumoResponse xml).success = false ∧
      (∃ e, (parseConsumoResponse xml).error = some e ∧ e ≠ "") ∧
      (parseConsumoResponse xml).data = none) ∧
    ((parseContratoResponse xml).success = false ∧
      (∃ e, (parseContratoResponse xml).error = some e ∧ e ≠ "") ∧
      (parseContratoResponse xml).data = none) := by
  refine ⟨⟨?_, ⟨faultMsgOf xml, ?_, faultMsgOf_ne_empty xml⟩, ?_⟩,
    ⟨?_, ⟨faultMsgOf xml, ?_, faultMsgOf_ne_empty xml⟩, ?_⟩,
    ⟨?_, ⟨faultMsgOf xml, ?_, faultMsgOf_ne_empty xml⟩, ?_⟩⟩ <;>
    simp [parseDeudaResponse, parseConsumoResponse, parseContratoResponse, h]

/-- C5 (witness): the fault-detection theorem at a concrete faulted SOAP
payload. -/
theorem parser_fault_detection_witness :
    ((parseDeudaResponse "<faultstring>Sistema no disponible</faultstring>").success = false ∧
      (∃ e, (parseDeudaResponse "<faultstring>Sistema no disponible</faultstring>").error
          = some e ∧ e ≠ "") ∧
      (parseDeudaResponse "<faultstring>Sistema no disponible</faultstring>").data = none) ∧
    ((parseConsumoResponse "<faultstring>Sistema no disponible</faultstring>").success = false ∧
      (∃ e, (parseConsumoResponse "<faultstring>Sistema no disponible</faultstring>").error
          = some e ∧ e ≠ "") ∧
      (parseConsumoResponse "<faultstring>Sistema no disponible</faultstring>").data = none) ∧
    ((parseContratoResponse "<faultstring>Sistema no disponible</faultstring>").success = false ∧
      (∃ e, (parseContratoResponse "<faultstring>Sistema no disponible</faultstring>").error
          = some e ∧ e ≠ "") ∧
      (parseContratoResponse "<faultstring>Sistema no disponible</faultstring>").data = none) :=
  parser_fault_detection "<faultstring>Sistema no disponible</faultstring>" (by decide)

/-! ## Claim C6 — parser tolerance on absent fields -/

/-- C6: for every payload in which all expected fields are absent (each
field the debt parser extracts yields no match, no debt line-item or
consumption blocks occur, and there is no fault marker — which holds in
particular for the empty string), the debt parser succeeds with all
numeric totals zero and an empty `conceptos` list, and the consumption
parser succeeds with an empty list, zero monthly average and a stable
trend.  Both parsers are total functions in the model — no input makes
them throw. -/
theorem parser_tolerance (xml : String)
    (hf : hasFaultMarker xml = false)
    (h1 : parseXMLValue xml "importeTotal" = none)
    (h2 : parseXMLValue xml "totalDeuda" = none)
    (h3 : parseXMLValue xml "importeVencido" = none)
    (h4 : parseXMLValue xml "importePorVencer" = none)
    (h5 : matchBlocks "<concepto>" "</concepto>" xml = [])
    (h6 : matchBlocks "<consumo>" "</consumo>" xml = [])
    (h7 : matchBlocks "<lectura>" "</lectura>" xml = []) :
    parseDeudaResponse xml
      = { success := true, error := none, rawResponse := none,
          data := some { totalDeuda := 0, vencido := 0, porVencer := 0, conceptos := [] } } ∧
    parseConsumoResponse xml
      = { success := true, error := none,
          data := some { consumos := [], promedioMensual := 0, tendencia := .estable } } := by
  constructor
  · unfold parseDeudaResponse
    rw [if_neg (by simp [hf])]
    simp [h1, h2, h3, h4, h5, jsOrElse, jsParseFloat_zero]
  · unfold parseConsumoResponse
    rw [if_neg (by simp [hf])]
    simp [h6, h7, computeTendencia]

/-- C6 (witness): the tolerance theorem applied at the empty payload. -/
theorem parser_tolerance_witness :
    parseDeudaResponse ""
      = { success := true, error := none, rawResponse := none,
          data := some { totalDeuda := 0, vencido := 0, porVencer := 0, conceptos := [] } } ∧
    parseConsumoResponse ""
      = { success := true, error := none,
          data := some { consumos := [], promedioMensual := 0, tendencia := .estable } } :=
  parser_tolerance "" (by decide) rfl rfl rfl rfl rfl rfl rfl

/-! ## Claim C8 — history bounding -/

/-- C8: after the persist step of every orchestrator turn, the stored
history has at most 20 messages; it is exactly the suffix of the appended
history of length `min (appended length) 20` — the most recent messages in
their original relative order. -/
theorem history_bounding (hist : List HistMsg) (u : HistMsg) (items : List HistMsg)
    (out : String) :
    (persistTurnHistory hist u items out).length ≤ 20 ∧
    (persistTurnHistory hist u items out).length
      = min (appendedTurnHistory hist u items out).length 20 ∧
    persistTurnHistory hist u items out <:+ appendedTurnHistory hist u items out := by
  unfold persistTurnHistory
  by_cases h : 20 < (appendedTurnHistory hist u items out).length
  · rw [if_pos h]
    refine ⟨?_, ?_, List.drop_suffix _ _⟩
    · rw [List.length_drop]
      omega
    · rw [List.length_drop]
      omega
  · rw [if_neg h]
    push_neg at h
    exact ⟨h, by omega, List.suffix_refl _⟩

/-! ## Claim C9 — incident store preference order -/

/-- C9 (counterexample): the claim says a failure of one configured store
causes the next store to be attempted rather than an error result being
returned.  With PostgreSQL configured and its insert failing — while the
Supabase and HTTP backends would both succeed — the tool returns the
PostgreSQL error result (`success: false`) without attempting either. -/
theorem incident_fallback_counterexample :
    (reportarIncidente true (.error "connection refused") true (.ok (some 7))
        (.ok ("42", "pendiente"))
        { tipo := .fuga, descripcion := "Fuga grande en la esquina", direccion := none,
          colonia := none, alcaldia := none, hogares_afectados := some 1, duracion := none,
          latitud := none, longitud := none }).success = false ∧
    (reportarIncidente true (.error "connection refused") true (.ok (some 7))
        (.ok ("42", "pendiente"))
        { tipo := .fuga, descripcion := "Fuga grande en la esquina", direccion := none,
          colonia := none, alcaldia := none, hogares_afectados := some 1, duracion := none,
          latitud := none, longitud := none }).error
      = some "No se pudo guardar el reporte: connection refused" := by
  exact ⟨rfl, rfl⟩

/-- C9 (amended): `reportar_incidente` consults exactly the first
configured backend in the order PostgreSQL, Supabase, HTTP API: an
unconfigured backend causes the next one to be used, and the outcomes of
the stores after the chosen one never influence the result; but a failure
of the chosen configured store yields a `success: false` error result
(returned to the turn as data, not an exception) — the next store is not
attempted. -/
theorem incident_store_order (pgC : Bool) (pgO : Except String (List Nat)) (sbC : Bool)
    (sbO : SupabaseOutcome) (apiO : Except String (String × String)) (inp : IncidenteInput) :
    (pgC = true → ∀ sbO' apiO',
      reportarIncidente pgC pgO sbC sbO' apiO' inp
        = reportarIncidente pgC pgO sbC sbO apiO inp) ∧
    (pgC = true → ∀ e, pgO = .error e →
      (reportarIncidente pgC pgO sbC sbO apiO inp).success = false ∧
      (reportarIncidente pgC pgO sbC sbO apiO inp).error
        = some ("No se pudo guardar el reporte: " ++ e)) ∧
    (pgC = false → sbC = true → ∀ pgO' apiO',
      reportarIncidente pgC pgO' sbC sbO apiO' inp
        = reportarIncidente pgC pgO sbC sbO apiO inp) ∧
    (pgC = false → sbC = true → ∀ m, sbO = .errField m ∨ sbO = .thrown m →
      (reportarIncidente pgC pgO sbC sbO apiO inp).success = false) ∧
    (pgC = false → sbC = false → ∀ pgO' sbO',
      reportarIncidente pgC pgO' sbC sbO' apiO inp
        = reportarIncidente pgC pgO sbC sbO apiO inp) ∧
    (pgC = false → sbC = false → ∀ e, apiO = .error e →
      (reportarIncidente pgC pgO sbC sbO apiO inp).success = false) := by
  refine ⟨?_, ?_, ?_, ?_, ?_, ?_⟩
  · intro hpg sbO' apiO'
    subst hpg
    rfl
  · intro hpg e he
    subst hpg
    subst he
    exact ⟨rfl, rfl⟩
  · intro hpg hsb pgO' apiO'
    subst hpg
    subst hsb
    rfl
  · intro hpg hsb m hm
    subst hpg
    subst hsb
    cases hm with
    | inl h => subst h; exact rfl
    | inr h => subst h; exact rfl
  · intro hpg hsb pgO' sbO'
    subst hpg
    subst hsb
    rfl
  · intro hpg hsb e he
    subst hpg
    subst hsb
    subst he
    rfl

/-- C9 (witness): the order theorem at a concrete state — PostgreSQL
configured and failing while the other backends would succeed. -/
theorem incident_store_order_witness :
    (reportarIncidente true (.error "down") true (.ok (some 3)) (.ok ("9", "pendiente"))
        { tipo := .sin_agua, descripcion := "Sin agua desde ayer", direccion := none,
          colonia := none, alcaldia := some "Coyoacán", hogares_afectados := some 4,
          duracion := some "1 dia", latitud := none, longitud := none }).success = false ∧
    reportarIncidente true (.error "down") true (.errField "x") (.error "api down")
        { tipo := .sin_agua, descripcion := "Sin agua desde ayer", direccion := none,
          colonia := none, alcaldia := some "Coyoacán", hogares_afectados := some 4,
          duracion := some "1 dia", latitud := none, longitud := none }
      = reportarIncidente true (.error "down") true (.ok (some 3)) (.ok ("9", "pendiente"))
        { tipo := .sin_agua, descripcion := "Sin agua desde ayer", direccion := none,
          colonia := none, alcaldia := some "Coyoacán", hogares_afectados := some 4,
          duracion := some "1 dia", latitud := none, longitud := none } := by
  have h := incident_store_order true (.error "down") true (.ok (some 3))
    (.ok ("9", "pendiente"))
    { tipo := .sin_agua, descripcion := "Sin agua desde ayer", direccion := none,
      colonia := none, alcaldia := some "Coyoacán", hogares_afectados := some 4,
      duracion := some "1 dia", latitud := none, longitud := none }
  exact ⟨(h.2.1 rfl "down" rfl).1, h.1 rfl (.errField "x") (.error "api down")⟩

/-! ## Claim C10 — WaterHub first-message welcome -/

/-- C10: in the WaterHub variant, a completed turn whose stored history is
empty at turn start always returns the fixed `WELCOME_MESSAGE` as
`output_text`, replacing whatever the routed agent produced, while
`toolsUsed` still records the agent turn's tool invocations. -/
theorem waterhub_welcome (hist : List HistMsg) (ar : AgentTurnResult)
    (h : hist.length = 0) :
    (waterhubRespond hist ar).1 = WELCOME_MESSAGE ∧
    (waterhubRespond hist ar).2 = ar.toolsUsed := by
  unfold waterhubRespond
  simp [h]

/-- C10 (witness): the welcome theorem at a concrete first turn in which
the agent produced its own text and invoked the incident-reporting tool. -/
theorem waterhub_welcome_witness :
    (waterhubRespond []
        { output := "Tu reporte quedo registrado", newItems := [],
          toolsUsed := ["reportar_incidente"] }).1 = WELCOME_MESSAGE ∧
    (waterhubRespond []
        { output := "Tu reporte quedo registrado", newItems := [],
          toolsUsed := ["reportar_incidente"] }).2
      = ["reportar_incidente"] :=
  waterhub_welcome []
    { output := "Tu reporte quedo registrado", newItems := [],
      toolsUsed := ["reportar_incidente"] } rfl

/-! ## Claim C7 — consumption trend classification -/

/-- C7: for every successfully parsed consumption history, the trend is
`aumentando` exactly when the mean of the three most recent periods (the
first three parsed entries) exceeds the mean of the three oldest periods in
the returned window (the last three entries) by more than the factor 1.1,
`disminuyendo` when it is below the factor 0.9, and `estable` otherwise —
and every history with fewer than three periods is `estable`. -/
theorem consumption_trend (xml : String) (d : ConsumoData)
    (h : (parseConsumoResponse xml).data = some d) :
    (3 ≤ d.consumos.length →
      d.tendencia =
        (if ((d.consumos.map (fun c => c.consumoM3)).take 3).sum / 3
            > ((d.consumos.map (fun c => c.consumoM3)).drop (d.consumos.length - 3)).sum / 3
              * (11 / 10 : Rat)
         then Tendencia.aumentando
         else if ((d.consumos.map (fun c => c.consumoM3)).take 3).sum / 3
            < ((d.consumos.map (fun c => c.consumoM3)).drop (d.consumos.length - 3)).sum / 3
              * (9 / 10 : Rat)
         then Tendencia.disminuyendo
         else Tendencia.estable)) ∧
    (d.consumos.length < 3 → d.tendencia = Tendencia.estable) := by
  unfold parseConsumoResponse at h
  by_cases hf : hasFaultMarker xml = true
  · rw [if_pos hf] at h
    exact absurd h (by simp)
  · rw [if_neg hf] at h
    simp only [Option.some.injEq] at h
    subst h
    constructor
    · intro h3
      simp only [List.length_map] at h3 ⊢
      unfold computeTendencia
      rw [if_pos (by simpa using h3)]
      simp only [List.length_map]
    · intro h3
      simp only [List.length_map] at h3 ⊢
      unfold computeTendencia
      rw [if_neg (by simp; omega)]

set_option maxRecDepth 100000 in
/-- C7 (witness): the trend theorem at a concrete four-period payload
(`20, 20, 20, 2` cubic metres, most recent first): the parse succeeds and
the recent mean 20 exceeds the old-window mean 14 by more than 10%, so the
trend is `aumentando`. -/
theorem consumption_trend_witness :
    (parseConsumoResponse "<consumo><m3>20</m3></consumo><consumo><m3>20</m3></consumo><consumo><m3>20</m3></consumo><consumo><m3>2</m3></consumo>").data
      = some
        { consumos :=
            [{ periodo := "", consumoM3 := 20, lecturaAnterior := 0, lecturaActual := 0,
               fechaLectura := "", tipoLectura := "real" },
             { periodo := "", consumoM3 := 20, lecturaAnterior := 0, lecturaActual := 0,
               fechaLectura := "", tipoLectura := "real" },
             { periodo := "", consumoM3 := 20, lecturaAnterior := 0, lecturaActual := 0,
               fechaLectura := "", tipoLectura := "real" },
             { periodo := "", consumoM3 := 2, lecturaAnterior := 0, lecturaActual := 0,
               fechaLectura := "", tipoLectura := "real" }],
          promedioMensual := 31 / 2,
          tendencia := Tendencia.aumentando } ∧
    ({ consumos :=
          [{ periodo := "", consumoM3 := 20, lecturaAnterior := 0, lecturaActual := 0,
             fechaLectura := "", tipoLectura := "real" },
           { periodo := "", consumoM3 := 20, lecturaAnterior := 0, lecturaActual := 0,
             fechaLectura := "", tipoLectura := "real" },
           { periodo := "", consumoM3 := 20, lecturaAnterior := 0, lecturaActual := 0,
             fechaLectura := "", tipoLectura := "real" },
           { periodo := "", consumoM3 := 2, lecturaAnterior := 0, lecturaActual := 0,
             fechaLectura := "", tipoLectura := "real" }],
        promedioMensual := 31 / 2,
        tendencia := Tendencia.aumentando } : ConsumoData).tendencia
      = Tendencia.aumentando := by
  have p20 : jsParseFloat "20" = 20 := by
    rw [jsParseFloat_digits "20" (by decide) (by decide)]
    norm_num [show digitsVal "20".data = 20 from by decide]
  have p2 : jsParseFloat "2" = 2 := by
    rw [jsParseFloat_digits "2" (by decide) (by decide)]
    norm_num [show digitsVal "2".data = 2 from by decide]
  have e1 : jsOrElse (parseXMLValue "<consumo><m3>20</m3></consumo>" "consumo")
      (jsOrElse (parseXMLValue "<consumo><m3>20</m3></consumo>" "m3") "0") = "20" := by decide
  have e2 : jsOrElse (parseXMLValue "<consumo><m3>2</m3></consumo>" "consumo")
      (jsOrElse (parseXMLValue "<consumo><m3>2</m3></consumo>" "m3") "0") = "2" := by decide
  have e3 : jsOrElse (parseXMLValue "<consumo><m3>20</m3></consumo>" "periodo")
      (jsOrElse (parseXMLValue "<consumo><m3>20</m3></consumo>" "fechaLectura") "") = "" := by
    decide
  have e4 : jsOrElse (parseXMLValue "<consumo><m3>2</m3></consumo>" "periodo")
      (jsOrElse (parseXMLValue "<consumo><m3>2</m3></consumo>" "fechaLectura") "") = "" := by
    decide
  have e5 : jsOrElse (parseXMLValue "<consumo><m3>20</m3></consumo>" "lecturaAnterior") "0"
      = "0" := by decide
  have e6 : jsOrElse (parseXMLValue "<consumo><m3>2</m3></consumo>" "lecturaAnterior") "0"
      = "0" := by decide
  have e7 : jsOrElse (parseXMLValue "<consumo><m3>20</m3></consumo>" "lecturaActual") "0"
      = "0" := by decide
  have e8 : jsOrElse (parseXMLValue "<consumo><m3>2</m3></consumo>" "lecturaActual") "0"
      = "0" := by decide
  have e9 : jsOrElse (parseXMLValue "<consumo><m3>20</m3></consumo>" "fechaLectura") ""
      = "" := by decide
  have e10 : jsOrElse (parseXMLValue "<consumo><m3>2</m3></consumo>" "fechaLectura") ""
      = "" := by decide
  have e11 : jsOrElse (parseXMLValue "<consumo><m3>20</m3></consumo>" "tipoLectura") "real"
      = "real" := by decide
  have e12 : jsOrElse (parseXMLValue "<consumo><m3>2</m3></consumo>" "tipoLectura") "real"
      = "real" := by decide
  have hdata : (parseConsumoResponse "<consumo><m3>20</m3></consumo><consumo><m3>20</m3></consumo><consumo><m3>20</m3></consumo><consumo><m3>2</m3></consumo>").data
      = some
        { consumos :=
            [{ periodo := "", consumoM3 := 20, lecturaAnterior := 0, lecturaActual := 0,
               fechaLectura := "", tipoLectura := "real" },
             { periodo := "", consumoM3 := 20, lecturaAnterior := 0, lecturaActual := 0,
               fechaLectura := "", tipoLectura := "real" },
             { periodo := "", consumoM3 := 20, lecturaAnterior := 0, lecturaActual := 0,
               fechaLectura := "", tipoLectura := "real" },
             { periodo := "", consumoM3 := 2, lecturaAnterior := 0, lecturaActual := 0,
               fechaLectura := "", tipoLectura := "real" }],
          promedioMensual := 31 / 2,
          tendencia := Tendencia.aumentando } := by
    unfold parseConsumoResponse
    rw [if_neg (by decide)]
    rw [show matchBlocks "<consumo>" "</consumo>" "<consumo><m3>20</m3></consumo><consumo><m3>20</m3></consumo><consumo><m3>20</m3></consumo><consumo><m3>2</m3></consumo>"
        = ["<consumo><m3>20</m3></consumo>", "<consumo><m3>20</m3></consumo>",
           "<consumo><m3>20</m3></consumo>", "<consumo><m3>2</m3></consumo>"] from by decide]
    simp only [List.cons_ne_nil, if_false, List.map_cons, List.map_nil, e1, e2, e3, e4, e5,
      e6, e7, e8, e9, e10, e11, e12, p20, p2, jsParseFloat_zero, List.length_cons,
      List.length_nil]
    norm_num [computeTendencia, List.take_succ_cons, List.drop_succ_cons, List.sum_cons]
    exact ⟨by decide, by decide⟩
  refine ⟨hdata, ?_⟩
  have h := (consumption_trend _ _ hdata).1 (by decide)
  rw [h]
  norm_num
